import Mathlib

/-!
# k8s-backupes: the three-step Elasticsearch snapshot run of `main.go`

A shallow embedding of `src/main.go`.

* The cluster is a function from the request the tool sends to the answer it gets:
  a transport error, or an HTTP status with a body.  Within one run the requests the
  tool can send differ pairwise (in method or in URL), so a function of the request
  describes every behaviour of a real cluster during one run.
* `encoding/json` is a library: a response body is given by what
  `ioutil.ReadAll` followed by `json.Unmarshal(bodyBytes, &bodyJSON)` make of it
  (`Body`), and the decoded values are the Go values the decoder stores in an
  `interface{}` (`GoValue`).
* `http.NewRequest` is assumed to succeed (the source discards its error).
* Effects are explicit: every operation returns its Go result together with the
  requests it issued and the log lines it printed, in order.
-/

set_option autoImplicit false

namespace K8sBackupes

/-! ## Data model -/

/-- The `Backup` struct of `main.go`. -/
structure Backup where
  url : String
  repoName : String
  repoPath : String
  snapshotName : String

/-- A value stored in an `interface{}` by `encoding/json`: `nil` (JSON null),
`bool`, `float64` (every JSON number; the payload is the bit pattern and is never
inspected), `string`, `[]interface{}` and `map[string]interface{}`. -/
inductive GoValue where
  | nil
  | bool (b : Bool)
  | float64 (bits : Nat)
  | string (s : String)
  | slice (xs : List GoValue)
  | map (entries : List (String × GoValue))

/-- The Go expression `m[key]` on a `map[string]interface{}`: the stored value, or
the zero value `nil` when the key is absent (also on a nil map, given as `[]`). -/
def mapIndex : List (String × GoValue) → String → GoValue
  | [], _ => GoValue.nil
  | (k, v) :: rest, key => if k = key then v else mapIndex rest key

/-- The Go comparison `v == "lit"` of an `interface{}` with a string constant: true
exactly when the dynamic type is `string` and the value is the constant. -/
def GoValue.eqString : GoValue → String → Bool
  | GoValue.string s, lit => decide (s = lit)
  | _, _ => false

/-- The Go comparison `v == true` (or `== false`) of an `interface{}` with a boolean
constant: true exactly when the dynamic type is `bool` and the value agrees. -/
def GoValue.eqBool : GoValue → Bool → Bool
  | GoValue.bool b, lit => decide (b = lit)
  | _, _ => false

/-- The name the Go runtime prints for the dynamic type of an `interface{}`. -/
def GoValue.typeName : GoValue → String
  | GoValue.nil => "nil"
  | GoValue.bool _ => "bool"
  | GoValue.float64 _ => "float64"
  | GoValue.string _ => "string"
  | GoValue.slice _ => "[]interface \x7b\x7d"
  | GoValue.map _ => "map[string]interface \x7b\x7d"

/-- HTTP methods the tool uses. -/
inductive Method where
  | GET
  | PUT
  deriving DecidableEq, Repr

/-- A request as the tool builds it: method, URL and request body (empty for the
two GETs and for the snapshot PUT, which sends `strings.NewReader("")`). -/
structure Request where
  method : Method
  url : String
  body : String
  deriving DecidableEq, Repr

/-- What the tool gets out of a response body: `ioutil.ReadAll` fails, or
`json.Unmarshal` into a `map[string]interface{}` returns an error (the bytes are
not valid JSON, or do not decode into such a map), or the decoder succeeds and
`bodyJSON` holds the given entries (none for the JSON text `null`). -/
inductive Body where
  | unreadable (err : String)
  | invalid (err : String)
  | decoded (entries : List (String × GoValue))

/-- The answer to one request: `err != nil` from the HTTP client, or a response. -/
inductive Answer where
  | transportError (err : String)
  | response (status : Nat) (body : Body)

/-- A cluster answers every request. -/
abbrev Cluster := Request → Answer

/-- The value a function of type `func() error` produces: `nil`, an error with its
message, or a run-time panic. -/
inductive Result where
  | nil
  | err (msg : String)
  | panic (msg : String)
  deriving DecidableEq, Repr

/-- The lines the tool logs, by format string; the arguments are kept unrendered.
* `connected url`: `"K8S | Info: Connected to cluster %s"`
* `healthConcern v`: `"K8S | Warning: Continues with health concern: %s"`
* `existingRepo`: `"K8S | Info: Using existing repo"`
* `usage`: `log.Fatalf("K8S | Error: Missing elasticsearch address as argument")`
* `fatal e`: `log.Fatalf("K8S | Error: %v", err)`
* `success`: `"K8S | Success: snapshot completed"` -/
inductive LogLine where
  | connected (url : String)
  | healthConcern (status : GoValue)
  | existingRepo
  | usage
  | fatal (err : String)
  | success

/-- An operation's result and its effects, in order. -/
structure Step where
  result : Result
  requests : List Request
  logs : List LogLine

/-- How the process ends: `main` returns (exit status 0), `log.Fatalf` calls
`os.Exit(1)`, or an unrecovered panic kills it (exit status 2). -/
inductive Exit where
  | success
  | fatal
  | panic (msg : String)
  deriving DecidableEq, Repr

/-- The exit status of the process. -/
def Exit.code : Exit → Nat
  | Exit.success => 0
  | Exit.fatal => 1
  | Exit.panic _ => 2

/-- A whole run of `main`. -/
structure Run where
  exit : Exit
  requests : List Request
  logs : List LogLine

/-! ## The three operations -/

/-- The request of `healthCheck`: `http.Get(fmt.Sprintf("%v/_cluster/health", b.url))`. -/
def healthRequest (b : Backup) : Request :=
  ⟨Method.GET, b.url ++ "/_cluster/health", ""⟩

/-- The method `func (b Backup) healthCheck() error`. -/
def healthCheck (c : Cluster) (b : Backup) : Step :=
  match c (healthRequest b) with
  | Answer.transportError e => ⟨Result.err e, [healthRequest b], []⟩
  | Answer.response status body =>
    if status = 200 then
      match body with
      | Body.unreadable e => ⟨Result.err e, [healthRequest b], [LogLine.connected b.url]⟩
      | Body.invalid e => ⟨Result.err e, [healthRequest b], [LogLine.connected b.url]⟩
      | Body.decoded bodyJSON =>
        if !(mapIndex bodyJSON "status").eqString "green" then
          ⟨Result.nil, [healthRequest b],
            [LogLine.connected b.url, LogLine.healthConcern (mapIndex bodyJSON "status")]⟩
        else
          ⟨Result.nil, [healthRequest b], [LogLine.connected b.url]⟩
    else
      ⟨Result.err "Health endpoint returns status other then OK", [healthRequest b], []⟩

/-- The existence probe of `createRepo`:
`http.Get(fmt.Sprintf("%v/_snapshot/%v", b.url, b.repoName))`. -/
def probeRequest (b : Backup) : Request :=
  ⟨Method.GET, b.url ++ "/_snapshot/" ++ b.repoName, ""⟩

/-- The creation request of `createRepo`: a PUT to the same URL whose body is
`fmt.Sprintf` of the format string
`{ "type": "fs", "settings": { "location": "/%v/%v" } }` with `b.repoPath` and
`b.repoName`. -/
def creationRequest (b : Backup) : Request :=
  ⟨Method.PUT, b.url ++ "/_snapshot/" ++ b.repoName,
    "\x7b \"type\": \"fs\", \"settings\": \x7b \"location\": \"/" ++ b.repoPath ++ "/"
      ++ b.repoName ++ "\" \x7d \x7d"⟩

/-- The method `func (b Backup) createRepo() error`. -/
def createRepo (c : Cluster) (b : Backup) : Step :=
  match c (probeRequest b) with
  | Answer.transportError _ =>
    ⟨Result.err "K8S | Error: Cannot connect to elasticsearch cluster", [probeRequest b], []⟩
  | Answer.response status _ =>
    if status = 404 then
      match c (creationRequest b) with
      | Answer.transportError e => ⟨Result.err e, [probeRequest b, creationRequest b], []⟩
      | Answer.response status2 body =>
        if status2 = 200 then
          match body with
          | Body.unreadable e => ⟨Result.err e, [probeRequest b, creationRequest b], []⟩
          | Body.invalid e => ⟨Result.err e, [probeRequest b, creationRequest b], []⟩
          | Body.decoded bodyJSON =>
            if !(mapIndex bodyJSON "acknowledged").eqBool true then
              ⟨Result.err "K8S | Error: Repo creation not acknowledged",
                [probeRequest b, creationRequest b], []⟩
            else
              ⟨Result.nil, [probeRequest b, creationRequest b], []⟩
        else
          ⟨Result.err "Cannot create new repo endpoint", [probeRequest b, creationRequest b], []⟩
    else if status = 200 then
      ⟨Result.nil, [probeRequest b], [LogLine.existingRepo]⟩
    else
      ⟨Result.err "Repo endpoint returns status other then OK", [probeRequest b], []⟩

/-- The request of `createSnapshot`: a PUT with an empty body to
`fmt.Sprintf("%v/_snapshot/%v/%v?wait_for_completion=true", b.url, b.repoName, b.snapshotName)`. -/
def snapshotRequest (b : Backup) : Request :=
  ⟨Method.PUT,
    b.url ++ "/_snapshot/" ++ b.repoName ++ "/" ++ b.snapshotName ++ "?wait_for_completion=true",
    ""⟩

/-- The method `func (b Backup) createSnapshot() error`.  The type assertion
`bodyJSON["snapshot"].(map[string]interface{})` is the one-result form: it panics
when the dynamic type is anything but `map[string]interface{}`. -/
def createSnapshot (c : Cluster) (b : Backup) : Step :=
  match c (snapshotRequest b) with
  | Answer.transportError _ =>
    ⟨Result.err "K8S | Error: Cannot connect to elasticsearch cluster", [snapshotRequest b], []⟩
  | Answer.response status body =>
    if status = 200 then
      match body with
      | Body.unreadable e => ⟨Result.err e, [snapshotRequest b], []⟩
      | Body.invalid e => ⟨Result.err e, [snapshotRequest b], []⟩
      | Body.decoded bodyJSON =>
        match mapIndex bodyJSON "snapshot" with
        | GoValue.map snapshotJSON =>
          if !(mapIndex snapshotJSON "state").eqString "SUCCESS" then
            ⟨Result.err "Snapshot creation not acknowledged", [snapshotRequest b], []⟩
          else
            ⟨Result.nil, [snapshotRequest b], []⟩
        | v =>
          ⟨Result.panic ("interface conversion: interface \x7b\x7d is " ++ v.typeName
              ++ ", not map[string]interface \x7b\x7d"),
            [snapshotRequest b], []⟩
    else
      ⟨Result.err "Snapshot endpoint returns status other then OK", [snapshotRequest b], []⟩

/-! ## Names derived from the clock, and `main` -/

/-- The fields of `time.Now()` that `main` reads: the date for
`Format("02-01-2006")` and the result of `Clock()` (hour, minute, second). -/
structure Time where
  year : Nat
  month : Nat
  day : Nat
  hour : Nat
  minute : Nat
  second : Nat

/-- The ASCII digit of `d`: the byte `'0' + d`. -/
def digitChar (d : Nat) : Char := Char.ofNat (48 + d)

/-- Decimal digits of `n`, most significant first; `fuel` bounds their number. -/
def decimal : Nat → Nat → List Char
  | 0, _ => []
  | fuel + 1, n =>
    if n < 10 then [digitChar n] else decimal fuel (n / 10) ++ [digitChar (n % 10)]

/-- The verb `%d` on a non-negative `int`: at most 19 digits, no padding. -/
def formatInt (n : Nat) : List Char := decimal 20 n

/-- Decimal with zeros added on the left up to `width`: the verb `%02d` of `fmt`
(`width = 2`) and the fields `02`, `01` (`width = 2`) and `2006` (`width = 4`)
of a `time` layout, on a non-negative number. -/
def zeroPad (width n : Nat) : List Char :=
  List.replicate (width - (formatInt n).length) '0' ++ formatInt n

/-- The call `currentTime.Format("02-01-2006")`: day, month, year, separated by `-`. -/
def formatDate (t : Time) : String :=
  String.mk (zeroPad 2 t.day ++ '-' :: zeroPad 2 t.month ++ '-' :: zeroPad 4 t.year)

/-- The call `fmt.Sprintf("%d-%02d", hr, min)` on the hour and minute of `Clock()`. -/
def formatClock (t : Time) : String :=
  String.mk (formatInt t.hour ++ '-' :: zeroPad 2 t.minute)

/-- The `Backup` value `main` builds from the clock and its argument. -/
def newBackup (now : Time) (arg : String) : Backup where
  url := arg
  repoName := "production-" ++ formatDate now
  repoPath := "snapshots"
  snapshotName := formatClock now

/-- The function `func main()`, on the answers of the cluster, the clock reading and
`os.Args[1:]`. -/
def main (c : Cluster) (now : Time) (args : List String) : Run :=
  match args with
  | [arg] =>
    let b := newBackup now arg
    let h := healthCheck c b
    match h.result with
    | Result.err e => ⟨Exit.fatal, h.requests, h.logs ++ [LogLine.fatal e]⟩
    | Result.panic p => ⟨Exit.panic p, h.requests, h.logs⟩
    | Result.nil =>
      let r := createRepo c b
      match r.result with
      | Result.err e =>
        ⟨Exit.fatal, h.requests ++ r.requests, h.logs ++ r.logs ++ [LogLine.fatal e]⟩
      | Result.panic p => ⟨Exit.panic p, h.requests ++ r.requests, h.logs ++ r.logs⟩
      | Result.nil =>
        let s := createSnapshot c b
        match s.result with
        | Result.err e =>
          ⟨Exit.fatal, h.requests ++ r.requests ++ s.requests,
            h.logs ++ r.logs ++ s.logs ++ [LogLine.fatal e]⟩
        | Result.panic p =>
          ⟨Exit.panic p, h.requests ++ r.requests ++ s.requests, h.logs ++ r.logs ++ s.logs⟩
        | Result.nil =>
          ⟨Exit.success, h.requests ++ r.requests ++ s.requests,
            h.logs ++ r.logs ++ s.logs ++ [LogLine.success]⟩
  | _ => ⟨Exit.fatal, [], [LogLine.usage]⟩

/-! ## Concrete inputs used in examples -/

/-- A clock reading: 4 November 2026, 09:05:33. -/
def sampleNow : Time := ⟨2026, 11, 4, 9, 5, 33⟩

/-- The configuration `main` builds at `sampleNow` for the argument `http://es:9200`. -/
def sampleBackup : Backup := newBackup sampleNow "http://es:9200"

/-- A cluster given by its answers to the four requests of `sampleBackup`; every
other request fails in transport. -/
def scripted (health probe creation snapshot : Answer) : Cluster := fun r =>
  if r = healthRequest sampleBackup then health
  else if r = probeRequest sampleBackup then probe
  else if r = creationRequest sampleBackup then creation
  else if r = snapshotRequest sampleBackup then snapshot
  else Answer.transportError "no route to host"

/-- The health body with `status` set to the string `green`. -/
def greenBody : Body := Body.decoded [("status", GoValue.string "green")]

/-- The body `acknowledged: true` of a repository creation. -/
def ackBody : Body := Body.decoded [("acknowledged", GoValue.bool true)]

/-- The snapshot body whose `snapshot` object has the given `state`. -/
def stateBody (state : String) : Body :=
  Body.decoded [("snapshot", GoValue.map [("state", GoValue.string state)])]

/-- A healthy cluster without the repository, on which creation and snapshot succeed. -/
def healthy : Cluster :=
  scripted (Answer.response 200 greenBody) (Answer.response 404 (Body.decoded []))
    (Answer.response 200 ackBody) (Answer.response 200 (stateBody "SUCCESS"))

/-- A cluster whose health endpoint answers 503. -/
def healthDown : Cluster :=
  scripted (Answer.response 503 greenBody) (Answer.response 200 (Body.decoded []))
    (Answer.response 200 ackBody) (Answer.response 200 (stateBody "SUCCESS"))

/-- A cluster that reports `red` and has the repository of the day. -/
def redCluster : Cluster :=
  scripted (Answer.response 200 (Body.decoded [("status", GoValue.string "red")]))
    (Answer.response 200 (Body.decoded []))
    (Answer.response 200 ackBody) (Answer.response 200 (stateBody "SUCCESS"))

/-- A healthy cluster without the repository whose snapshot ends in state `FAILED`. -/
def snapshotFailed : Cluster :=
  scripted (Answer.response 200 greenBody) (Answer.response 404 (Body.decoded []))
    (Answer.response 200 ackBody) (Answer.response 200 (stateBody "FAILED"))

/-- A cluster that cannot be reached. -/
def unreachable : Cluster := fun _ => Answer.transportError "connection refused"

/-- A healthy cluster whose repository probe answers 500. -/
def probeBroken : Cluster :=
  scripted (Answer.response 200 greenBody) (Answer.response 500 (Body.decoded []))
    (Answer.response 200 ackBody) (Answer.response 200 (stateBody "SUCCESS"))

/-- A healthy cluster with the repository whose snapshot endpoint answers 500. -/
def snapshotBroken : Cluster :=
  scripted (Answer.response 200 greenBody) (Answer.response 200 (Body.decoded []))
    (Answer.response 200 ackBody) (Answer.response 500 (stateBody "SUCCESS"))

/-- A healthy cluster whose repository probe answers 200 with a body that is not
valid JSON, and on which the snapshot succeeds. -/
def probeGarbled : Cluster :=
  scripted (Answer.response 200 greenBody)
    (Answer.response 200 (Body.invalid "invalid character looking for beginning of value"))
    (Answer.response 200 ackBody) (Answer.response 200 (stateBody "SUCCESS"))

/-- A healthy cluster with the repository whose snapshot endpoint answers 200 with
the given decoded body. -/
def snapshotAnswers (entries : List (String × GoValue)) : Cluster :=
  scripted (Answer.response 200 greenBody) (Answer.response 200 (Body.decoded []))
    (Answer.response 200 ackBody) (Answer.response 200 (Body.decoded entries))

/-! ## The names and the request body as the specification words them -/

/-- Specification side: a number below 100 written with two digits, zero-padded. -/
def specTwoDigits (n : Nat) : String :=
  String.mk [digitChar (n / 10), digitChar (n % 10)]

/-- Specification side: a number below 10000 written with four digits. -/
def specFourDigits (n : Nat) : String :=
  String.mk [digitChar (n / 1000), digitChar (n / 100 % 10), digitChar (n / 10 % 10),
    digitChar (n % 10)]

/-- Specification side: an hour of the 24-hour clock in decimal without padding. -/
def specHour (h : Nat) : String :=
  if h < 10 then String.mk [digitChar h] else specTwoDigits h

/-- Specification side: the JSON text, in the spacing of the format string of
`createRepo`, of a repository definition whose `type` is `fs` and whose
`settings.location` is `location`. -/
def specRepositoryBody (location : String) : String :=
  "\x7b \"type\": \"fs\", \"settings\": \x7b \"location\": \"" ++ location ++ "\" \x7d \x7d"

/-! ## Basic facts about the operations -/

theorem eqString_iff (v : GoValue) (lit : String) :
    v.eqString lit = true ↔ v = GoValue.string lit := by
  cases v <;> simp [GoValue.eqString]

theorem eqBool_iff (v : GoValue) (lit : Bool) :
    v.eqBool lit = true ↔ v = GoValue.bool lit := by
  cases v <;> simp [GoValue.eqBool]

theorem healthCheck_requests (c : Cluster) (b : Backup) :
    (healthCheck c b).requests = [healthRequest b] := by
  unfold healthCheck
  split
  · rfl
  · split
    · split
      · rfl
      · rfl
      · split <;> rfl
    · rfl

theorem healthCheck_no_panic (c : Cluster) (b : Backup) (p : String) :
    (healthCheck c b).result ≠ Result.panic p := by
  unfold healthCheck
  split
  · simp
  · split
    · split
      · simp
      · simp
      · split <;> simp
    · simp

theorem createRepo_no_panic (c : Cluster) (b : Backup) (p : String) :
    (createRepo c b).result ≠ Result.panic p := by
  unfold createRepo
  split
  · simp
  · split
    · split
      · simp
      · split
        · split
          · simp
          · simp
          · split <;> simp
        · simp
    · split <;> simp

theorem createRepo_requests (c : Cluster) (b : Backup) :
    (createRepo c b).requests = [probeRequest b] ∨
      (createRepo c b).requests = [probeRequest b, creationRequest b] := by
  unfold createRepo
  split
  · simp
  · split
    · split
      · simp
      · split
        · split
          · simp
          · simp
          · split <;> simp
        · simp
    · split <;> simp

theorem createSnapshot_requests (c : Cluster) (b : Backup) :
    (createSnapshot c b).requests = [snapshotRequest b] := by
  unfold createSnapshot
  split
  · rfl
  · split
    · split
      · rfl
      · rfl
      · split
        · split <;> rfl
        · rfl
    · rfl

/-- The health GET and the probe GET go to different URLs. -/
theorem healthRequest_ne_probeRequest (b : Backup) : healthRequest b ≠ probeRequest b := by
  intro h
  have h1 := congrArg (fun r => r.url.data) h
  simp only [healthRequest, probeRequest, String.data_append, List.append_assoc] at h1
  have h2 := List.append_cancel_left h1
  simp at h2

/-- The probe GET and the creation PUT differ in their method. -/
theorem probeRequest_ne_creationRequest (b : Backup) : probeRequest b ≠ creationRequest b := by
  intro h
  have := congrArg Request.method h
  simp [probeRequest, creationRequest] at this

/-- The snapshot request differs from the three requests of the earlier stages. -/
theorem snapshotRequest_ne (b : Backup) :
    snapshotRequest b ≠ healthRequest b ∧ snapshotRequest b ≠ probeRequest b ∧
      snapshotRequest b ≠ creationRequest b := by
  refine ⟨?_, ?_, ?_⟩
  · intro h
    have := congrArg Request.method h
    simp [snapshotRequest, healthRequest] at this
  · intro h
    have := congrArg Request.method h
    simp [snapshotRequest, probeRequest] at this
  · intro h
    have := congrArg (fun r => r.url.length) h
    simp [snapshotRequest, creationRequest, String.length_append] at this
    have h2 : ("?wait_for_completion=true" : String).length = 25 := by decide
    have h3 : ("/" : String).length = 1 := by decide
    omega

/-- The run when `healthCheck` returns an error. -/
theorem main_health_err (c : Cluster) (now : Time) (arg e : String)
    (h : (healthCheck c (newBackup now arg)).result = Result.err e) :
    main c now [arg] = ⟨Exit.fatal, [healthRequest (newBackup now arg)],
      (healthCheck c (newBackup now arg)).logs ++ [LogLine.fatal e]⟩ := by
  simp only [main, h, healthCheck_requests]

/-- The run when `healthCheck` passes and `createRepo` returns an error. -/
theorem main_repo_err (c : Cluster) (now : Time) (arg e : String)
    (h : (healthCheck c (newBackup now arg)).result = Result.nil)
    (r : (createRepo c (newBackup now arg)).result = Result.err e) :
    main c now [arg] = ⟨Exit.fatal,
      healthRequest (newBackup now arg) :: (createRepo c (newBackup now arg)).requests,
      (healthCheck c (newBackup now arg)).logs ++ (createRepo c (newBackup now arg)).logs
        ++ [LogLine.fatal e]⟩ := by
  simp only [main, h, r, healthCheck_requests, List.singleton_append]

/-- The run when `healthCheck` and `createRepo` pass: it ends as `createSnapshot` does. -/
theorem main_repo_ok (c : Cluster) (now : Time) (arg : String)
    (h : (healthCheck c (newBackup now arg)).result = Result.nil)
    (r : (createRepo c (newBackup now arg)).result = Result.nil) :
    (main c now [arg]).requests = healthRequest (newBackup now arg) ::
        ((createRepo c (newBackup now arg)).requests ++ [snapshotRequest (newBackup now arg)]) ∧
      (main c now [arg]).exit =
        (match (createSnapshot c (newBackup now arg)).result with
          | Result.nil => Exit.success
          | Result.err _ => Exit.fatal
          | Result.panic p => Exit.panic p) := by
  simp only [main, h, r, healthCheck_requests, createSnapshot_requests]
  cases (createSnapshot c (newBackup now arg)).result <;> simp

/-- The probe is the first request `createRepo` issues. -/
theorem probe_mem_createRepo (c : Cluster) (b : Backup) :
    probeRequest b ∈ (createRepo c b).requests := by
  rcases createRepo_requests c b with h | h <;> simp [h]

/-- The snapshot request is not among the requests of `createRepo`. -/
theorem snapshot_not_mem_createRepo (c : Cluster) (b : Backup) :
    snapshotRequest b ∉ (createRepo c b).requests := by
  have hne := snapshotRequest_ne b
  rcases createRepo_requests c b with h | h <;> simp [h, hne.2.1, hne.2.2]

/-- Once `healthCheck` passes, the probe is issued. -/
theorem probe_mem_main (c : Cluster) (now : Time) (arg : String)
    (h : (healthCheck c (newBackup now arg)).result = Result.nil) :
    probeRequest (newBackup now arg) ∈ (main c now [arg]).requests := by
  have hp := probe_mem_createRepo c (newBackup now arg)
  cases r : (createRepo c (newBackup now arg)).result with
  | nil => rw [(main_repo_ok c now arg h r).1]; simp [hp]
  | err e => rw [main_repo_err c now arg e h r]; simp [hp]
  | panic p => exact absurd r (createRepo_no_panic c _ p)

/-- An error returned by `createSnapshot` ends the run in `log.Fatalf`, whether or
not the earlier stages let the run reach it. -/
theorem main_fatal_of_snapshot_err (c : Cluster) (now : Time) (arg e : String)
    (hs : (createSnapshot c (newBackup now arg)).result = Result.err e) :
    (main c now [arg]).exit = Exit.fatal := by
  cases h : (healthCheck c (newBackup now arg)).result with
  | err e1 => rw [main_health_err c now arg e1 h]
  | panic p => exact absurd h (healthCheck_no_panic c _ p)
  | nil =>
    cases r : (createRepo c (newBackup now arg)).result with
    | err e2 => rw [main_repo_err c now arg e2 h r]
    | panic p => exact absurd r (createRepo_no_panic c _ p)
    | nil => rw [(main_repo_ok c now arg h r).2, hs]

/-- Every request of a run is one of the four requests of its configuration. -/
theorem main_requests_subset (c : Cluster) (now : Time) (arg : String) (r : Request)
    (hr : r ∈ (main c now [arg]).requests) :
    r = healthRequest (newBackup now arg) ∨ r = probeRequest (newBackup now arg) ∨
      r = creationRequest (newBackup now arg) ∨ r = snapshotRequest (newBackup now arg) := by
  have hrepo := createRepo_requests c (newBackup now arg)
  cases h : (healthCheck c (newBackup now arg)).result with
  | err e1 =>
    rw [main_health_err c now arg e1 h] at hr
    simp at hr
    exact Or.inl hr
  | panic p => exact absurd h (healthCheck_no_panic c _ p)
  | nil =>
    cases hq : (createRepo c (newBackup now arg)).result with
    | err e2 =>
      rw [main_repo_err c now arg e2 h hq] at hr
      rcases hrepo with h1 | h1 <;> simp [h1] at hr <;> tauto
    | panic p => exact absurd hq (createRepo_no_panic c _ p)
    | nil =>
      rw [(main_repo_ok c now arg h hq).1] at hr
      rcases hrepo with h1 | h1 <;> simp [h1] at hr <;> tauto

/-- The digit `0`. -/
theorem digitChar_zero : digitChar 0 = '0' := by decide

/-- A number below 10 has one digit. -/
theorem decimal_one (fuel n : Nat) (h : n < 10) : decimal (fuel + 1) n = [digitChar n] := by
  simp [decimal, h]

/-- One more digit for a number from 10 on. -/
theorem decimal_step (fuel n : Nat) (h : ¬ n < 10) :
    decimal (fuel + 1) n = decimal fuel (n / 10) ++ [digitChar (n % 10)] := by
  simp [decimal, h]

/-- The digits of a number below 10000, by its size. -/
theorem decimal_lt_ten_thousand (fuel n : Nat) (h : n < 10000) :
    decimal (fuel + 4) n =
      if n < 10 then [digitChar n]
      else if n < 100 then [digitChar (n / 10), digitChar (n % 10)]
      else if n < 1000 then [digitChar (n / 100), digitChar (n / 10 % 10), digitChar (n % 10)]
      else [digitChar (n / 1000), digitChar (n / 100 % 10), digitChar (n / 10 % 10),
        digitChar (n % 10)] := by
  by_cases h10 : n < 10
  · rw [decimal_one (fuel + 3) n h10, if_pos h10]
  · rw [decimal_step (fuel + 3) n h10, if_neg h10]
    by_cases h100 : n < 100
    · rw [decimal_one (fuel + 2) (n / 10) (by omega), if_pos h100]
      rfl
    · rw [decimal_step (fuel + 2) (n / 10) (by omega), if_neg h100]
      by_cases h1000 : n < 1000
      · rw [decimal_one (fuel + 1) (n / 10 / 10) (by omega), if_pos h1000]
        have e0 : n / 10 / 10 = n / 100 := by omega
        rw [e0]
        rfl
      · rw [decimal_step (fuel + 1) (n / 10 / 10) (by omega), if_neg h1000,
          decimal_one fuel (n / 10 / 10 / 10) (by omega)]
        have e0 : n / 10 / 10 = n / 100 := by omega
        have e1 : n / 100 / 10 = n / 1000 := by omega
        rw [e0, e1]
        rfl

/-- The verb `%d` on a number below 100. -/
theorem formatInt_lt_hundred (n : Nat) (h : n < 100) :
    formatInt n = if n < 10 then [digitChar n] else [digitChar (n / 10), digitChar (n % 10)] := by
  have h0 : formatInt n = decimal (16 + 4) n := rfl
  rw [h0, decimal_lt_ten_thousand 16 n (by omega)]
  simp [h]

/-- Two-digit zero padding of a number below 100. -/
theorem zeroPad_two (n : Nat) (h : n < 100) :
    zeroPad 2 n = [digitChar (n / 10), digitChar (n % 10)] := by
  by_cases h10 : n < 10
  · have h0 : n / 10 = 0 := by omega
    have h1 : n % 10 = n := by omega
    simp [zeroPad, formatInt_lt_hundred n h, h10, h0, h1, digitChar_zero]
  · simp [zeroPad, formatInt_lt_hundred n h, h10]

/-- Four-digit zero padding of a number below 10000. -/
theorem zeroPad_four (n : Nat) (h : n < 10000) :
    zeroPad 4 n = [digitChar (n / 1000), digitChar (n / 100 % 10), digitChar (n / 10 % 10),
      digitChar (n % 10)] := by
  have h0 : formatInt n = decimal (16 + 4) n := rfl
  unfold zeroPad
  rw [h0, decimal_lt_ten_thousand 16 n h]
  by_cases h10 : n < 10
  · have e1 : n / 1000 = 0 := by omega
    have e2 : n / 100 % 10 = 0 := by omega
    have e3 : n / 10 % 10 = 0 := by omega
    have e4 : n % 10 = n := by omega
    simp [h10, e1, e2, e3, e4, digitChar_zero, List.replicate]
  · by_cases h100 : n < 100
    · have e1 : n / 1000 = 0 := by omega
      have e2 : n / 100 % 10 = 0 := by omega
      have e3 : n / 10 % 10 = n / 10 := by omega
      simp [h10, h100, e1, e2, e3, digitChar_zero, List.replicate]
    · by_cases h1000 : n < 1000
      · have e1 : n / 1000 = 0 := by omega
        have e2 : n / 100 % 10 = n / 100 := by omega
        simp [h10, h100, h1000, e1, e2, digitChar_zero, List.replicate]
      · simp [h10, h100, h1000]

/-- The date of `main` in the words of the specification: `DD-MM-YYYY`. -/
theorem formatDate_eq (t : Time) (hd : t.day < 100) (hm : t.month < 100)
    (hy : t.year < 10000) :
    formatDate t =
      specTwoDigits t.day ++ "-" ++ specTwoDigits t.month ++ "-" ++ specFourDigits t.year := by
  apply String.ext
  simp [formatDate, zeroPad_two _ hd, zeroPad_two _ hm, zeroPad_four _ hy, specTwoDigits,
    specFourDigits, String.data_append]

/-- The clock of `main` in the words of the specification: `H-MM`. -/
theorem formatClock_eq (t : Time) (hh : t.hour < 100) (hn : t.minute < 100) :
    formatClock t = specHour t.hour ++ "-" ++ specTwoDigits t.minute := by
  apply String.ext
  by_cases h10 : t.hour < 10
  · simp [formatClock, formatInt_lt_hundred _ hh, zeroPad_two _ hn, specHour, specTwoDigits,
      String.data_append, h10]
  · simp [formatClock, formatInt_lt_hundred _ hh, zeroPad_two _ hn, specHour, specTwoDigits,
      String.data_append, h10]

/-! ## The claims -/

/-- C1: when the health GET ends in a transport error or in a status other than
200, the run ends in `log.Fatalf` and the one health GET is the only request
issued.  More generally an error returned by `healthCheck`, `createRepo` or
`createSnapshot` ends the run in `log.Fatalf`, and no request of a later stage is
issued: after a `healthCheck` error the health GET is the only request, and after a
`createRepo` error the requests are the health GET and those of `createRepo`,
without the snapshot PUT. -/
theorem failure_gates_later_stages (c : Cluster) (now : Time) (arg : String) :
    (((∃ e, c (healthRequest (newBackup now arg)) = Answer.transportError e) ∨
        (∃ st body, c (healthRequest (newBackup now arg)) = Answer.response st body ∧ st ≠ 200)) →
      (main c now [arg]).exit = Exit.fatal ∧
      (main c now [arg]).requests = [healthRequest (newBackup now arg)]) ∧
    (∀ e, (healthCheck c (newBackup now arg)).result = Result.err e →
      (main c now [arg]).exit = Exit.fatal ∧
      (main c now [arg]).requests = [healthRequest (newBackup now arg)]) ∧
    (∀ e, (healthCheck c (newBackup now arg)).result = Result.nil →
      (createRepo c (newBackup now arg)).result = Result.err e →
      (main c now [arg]).exit = Exit.fatal ∧
      (main c now [arg]).requests =
        healthRequest (newBackup now arg) :: (createRepo c (newBackup now arg)).requests ∧
      snapshotRequest (newBackup now arg) ∉ (main c now [arg]).requests) ∧
    (∀ e, (healthCheck c (newBackup now arg)).result = Result.nil →
      (createRepo c (newBackup now arg)).result = Result.nil →
      (createSnapshot c (newBackup now arg)).result = Result.err e →
      (main c now [arg]).exit = Exit.fatal) := by
  refine ⟨?_, ?_, ?_, ?_⟩
  · intro h
    have herr : ∃ e, (healthCheck c (newBackup now arg)).result = Result.err e := by
      rcases h with ⟨e, he⟩ | ⟨st, body, hr, hst⟩
      · exact ⟨e, by simp [healthCheck, he]⟩
      · exact ⟨"Health endpoint returns status other then OK", by simp [healthCheck, hr, hst]⟩
    obtain ⟨e, he⟩ := herr
    rw [main_health_err c now arg e he]
    exact ⟨rfl, rfl⟩
  · intro e he
    rw [main_health_err c now arg e he]
    exact ⟨rfl, rfl⟩
  · intro e hh hr
    rw [main_repo_err c now arg e hh hr]
    refine ⟨rfl, rfl, ?_⟩
    have h1 := (snapshotRequest_ne (newBackup now arg)).1
    have h2 := snapshot_not_mem_createRepo c (newBackup now arg)
    simp [h1, h2]
  · intro e hh hr hs
    rw [(main_repo_ok c now arg hh hr).2, hs]

/-- Witness for C1: a cluster whose health endpoint answers 503, one that is
unreachable, one whose repository probe answers 500 and one whose snapshot
endpoint answers 500. -/
theorem failure_gates_later_stages_witness :
    ((main healthDown sampleNow ["http://es:9200"]).exit = Exit.fatal ∧
      (main healthDown sampleNow ["http://es:9200"]).requests = [healthRequest sampleBackup]) ∧
    ((main unreachable sampleNow ["http://es:9200"]).exit = Exit.fatal ∧
      (main unreachable sampleNow ["http://es:9200"]).requests = [healthRequest sampleBackup]) ∧
    ((main probeBroken sampleNow ["http://es:9200"]).exit = Exit.fatal ∧
      snapshotRequest sampleBackup ∉ (main probeBroken sampleNow ["http://es:9200"]).requests) ∧
    (main snapshotBroken sampleNow ["http://es:9200"]).exit = Exit.fatal :=
  ⟨(failure_gates_later_stages healthDown sampleNow "http://es:9200").1
      (Or.inr ⟨503, greenBody, by rfl, by decide⟩),
    (failure_gates_later_stages unreachable sampleNow "http://es:9200").2.1
      "connection refused" (by rfl),
    ⟨((failure_gates_later_stages probeBroken sampleNow "http://es:9200").2.2.1
        "Repo endpoint returns status other then OK" (by rfl) (by rfl)).1,
     ((failure_gates_later_stages probeBroken sampleNow "http://es:9200").2.2.1
        "Repo endpoint returns status other then OK" (by rfl) (by rfl)).2.2⟩,
    (failure_gates_later_stages snapshotBroken sampleNow "http://es:9200").2.2.2
        "Snapshot endpoint returns status other then OK" (by rfl) (by rfl) (by rfl)⟩

/-- C2: a health response with status 200 and a body that decodes as a JSON object
makes `healthCheck` return `nil` whatever `status` holds, so the run issues the
repository probe; the warning line is logged exactly when `status` is not the
string `green`. -/
theorem health_status_is_advisory (c : Cluster) (now : Time) (arg : String)
    (bodyJSON : List (String × GoValue))
    (h : c (healthRequest (newBackup now arg)) = Answer.response 200 (Body.decoded bodyJSON)) :
    (healthCheck c (newBackup now arg)).result = Result.nil ∧
    probeRequest (newBackup now arg) ∈ (main c now [arg]).requests ∧
    ((∃ v, LogLine.healthConcern v ∈ (healthCheck c (newBackup now arg)).logs) ↔
      mapIndex bodyJSON "status" ≠ GoValue.string "green") := by
  have hres : (healthCheck c (newBackup now arg)).result = Result.nil := by
    simp only [healthCheck, h, if_true]
    split <;> rfl
  refine ⟨hres, probe_mem_main c now arg hres, ?_⟩
  by_cases hg : mapIndex bodyJSON "status" = GoValue.string "green"
  · simp [healthCheck, h, hg, GoValue.eqString]
  · have hb : (mapIndex bodyJSON "status").eqString "green" = false := by
      cases hv : (mapIndex bodyJSON "status").eqString "green" with
      | false => rfl
      | true => exact absurd ((eqString_iff _ _).1 hv) hg
    simp [healthCheck, h, hb, hg]

/-- Witness for C2: a cluster that reports `red`, where the warning is logged and
the probe is issued all the same. -/
theorem health_status_is_advisory_witness :
    redCluster (healthRequest (newBackup sampleNow "http://es:9200")) =
        Answer.response 200 (Body.decoded [("status", GoValue.string "red")]) ∧
    (healthCheck redCluster (newBackup sampleNow "http://es:9200")).result = Result.nil ∧
    probeRequest (newBackup sampleNow "http://es:9200") ∈
      (main redCluster sampleNow ["http://es:9200"]).requests ∧
    ((∃ v, LogLine.healthConcern v ∈
        (healthCheck redCluster (newBackup sampleNow "http://es:9200")).logs) ↔
      mapIndex [("status", GoValue.string "red")] "status" ≠ GoValue.string "green") :=
  ⟨by rfl, health_status_is_advisory redCluster sampleNow "http://es:9200"
    [("status", GoValue.string "red")] (by rfl)⟩

/-- C3: when the existence probe answers 200, `createRepo` returns `nil` and the
probe is its only request: it sends no PUT.  A run whose health check passed then
issues exactly the health GET, the probe and the snapshot PUT. -/
theorem existing_repo_skips_creation (c : Cluster) (b : Backup) (body : Body)
    (h : c (probeRequest b) = Answer.response 200 body) :
    (createRepo c b).result = Result.nil ∧
    (createRepo c b).requests = [probeRequest b] ∧
    (∀ r ∈ (createRepo c b).requests, r.method ≠ Method.PUT) ∧
    (∀ now arg, b = newBackup now arg → (healthCheck c b).result = Result.nil →
      (main c now [arg]).requests = [healthRequest b, probeRequest b, snapshotRequest b]) := by
  have hres : (createRepo c b).result = Result.nil := by simp [createRepo, h]
  have hreq : (createRepo c b).requests = [probeRequest b] := by simp [createRepo, h]
  refine ⟨hres, hreq, ?_, ?_⟩
  · intro r hr
    rw [hreq] at hr
    simp only [List.mem_singleton] at hr
    subst hr
    simp [probeRequest]
  · intro now arg hb hh
    subst hb
    rw [(main_repo_ok c now arg hh hres).1, hreq]
    rfl

/-- Witness for C3: a healthy cluster that already has the repository of the day. -/
theorem existing_repo_skips_creation_witness :
    snapshotBroken (probeRequest sampleBackup) = Answer.response 200 (Body.decoded []) ∧
    (createRepo snapshotBroken sampleBackup).result = Result.nil ∧
    (createRepo snapshotBroken sampleBackup).requests = [probeRequest sampleBackup] ∧
    (main snapshotBroken sampleNow ["http://es:9200"]).requests =
      [healthRequest sampleBackup, probeRequest sampleBackup, snapshotRequest sampleBackup] :=
  ⟨by rfl,
    (existing_repo_skips_creation snapshotBroken sampleBackup (Body.decoded []) (by rfl)).1,
    (existing_repo_skips_creation snapshotBroken sampleBackup (Body.decoded []) (by rfl)).2.1,
    (existing_repo_skips_creation snapshotBroken sampleBackup (Body.decoded []) (by rfl)).2.2.2
      sampleNow "http://es:9200" rfl (by rfl)⟩

/-- C5: after a probe that answers 404, `createRepo` returns `nil` exactly when the
creation PUT answers 200 with a body that decodes as a JSON object whose
`acknowledged` is the boolean `true`.  A transport error, a status other than 200,
a body that is not valid JSON, and an `acknowledged` that is anything but the
boolean `true` (false, absent, a string, a number) each give an error. -/
theorem creation_needs_acknowledgement (c : Cluster) (b : Backup) (probeBody : Body)
    (h : c (probeRequest b) = Answer.response 404 probeBody) :
    ((createRepo c b).result = Result.nil ↔
      ∃ bodyJSON, c (creationRequest b) = Answer.response 200 (Body.decoded bodyJSON) ∧
        mapIndex bodyJSON "acknowledged" = GoValue.bool true) ∧
    (∀ e, c (creationRequest b) = Answer.transportError e →
      (createRepo c b).result = Result.err e) ∧
    (∀ st body, c (creationRequest b) = Answer.response st body → st ≠ 200 →
      (createRepo c b).result = Result.err "Cannot create new repo endpoint") ∧
    (∀ e, c (creationRequest b) = Answer.response 200 (Body.invalid e) →
      (createRepo c b).result = Result.err e) ∧
    (∀ bodyJSON, c (creationRequest b) = Answer.response 200 (Body.decoded bodyJSON) →
      mapIndex bodyJSON "acknowledged" ≠ GoValue.bool true →
      (createRepo c b).result = Result.err "K8S | Error: Repo creation not acknowledged") := by
  have hack : ∀ bodyJSON, c (creationRequest b) = Answer.response 200 (Body.decoded bodyJSON) →
      mapIndex bodyJSON "acknowledged" ≠ GoValue.bool true →
      (createRepo c b).result = Result.err "K8S | Error: Repo creation not acknowledged" := by
    intro bodyJSON hc hne
    have hb : (mapIndex bodyJSON "acknowledged").eqBool true = false := by
      cases hv : (mapIndex bodyJSON "acknowledged").eqBool true with
      | false => rfl
      | true => exact absurd ((eqBool_iff _ _).1 hv) hne
    simp [createRepo, h, hc, hb]
  refine ⟨⟨?_, ?_⟩, ?_, ?_, ?_, hack⟩
  · intro hnil
    cases hc : c (creationRequest b) with
    | transportError e => simp [createRepo, h, hc] at hnil
    | response st body =>
      by_cases hst : st = 200
      · subst hst
        cases body with
        | unreadable e => simp [createRepo, h, hc] at hnil
        | invalid e => simp [createRepo, h, hc] at hnil
        | decoded bodyJSON =>
          refine ⟨bodyJSON, rfl, ?_⟩
          by_contra hne
          rw [hack bodyJSON hc hne] at hnil
          exact Result.noConfusion hnil
      · simp [createRepo, h, hc, hst] at hnil
  · rintro ⟨bodyJSON, hc, hv⟩
    simp [createRepo, h, hc, hv, GoValue.eqBool]
  · intro e hc
    simp [createRepo, h, hc]
  · intro st body hc hst
    simp [createRepo, h, hc, hst]
  · intro e hc
    simp [createRepo, h, hc]

/-- Witness for C5: on a cluster without the repository, creation succeeds when it
is acknowledged, and fails when `acknowledged` is the string `true`. -/
theorem creation_needs_acknowledgement_witness :
    healthy (probeRequest sampleBackup) = Answer.response 404 (Body.decoded []) ∧
    (createRepo healthy sampleBackup).result = Result.nil ∧
    (createRepo (scripted (Answer.response 200 greenBody) (Answer.response 404 (Body.decoded []))
        (Answer.response 200 (Body.decoded [("acknowledged", GoValue.string "true")]))
        (Answer.response 200 (stateBody "SUCCESS"))) sampleBackup).result =
      Result.err "K8S | Error: Repo creation not acknowledged" :=
  ⟨by rfl,
    (creation_needs_acknowledgement healthy sampleBackup (Body.decoded []) (by rfl)).1.2
      ⟨[("acknowledged", GoValue.bool true)], by rfl, by rfl⟩,
    (creation_needs_acknowledgement _ sampleBackup (Body.decoded []) (by rfl)).2.2.2.2
      [("acknowledged", GoValue.string "true")] (by rfl)
      (by intro hv; exact GoValue.noConfusion (hv : GoValue.string "true" = GoValue.bool true))⟩

/-- C6: on a snapshot response whose body is a JSON object holding a `snapshot`
object, `createSnapshot` returns `nil` exactly when the status is 200 and
`snapshot.state` is the string `SUCCESS`; with status 200 and any other state it
returns the fixed error `Snapshot creation not acknowledged`, and the run ends in
`log.Fatalf`. -/
theorem snapshot_needs_success_state (c : Cluster) (b : Backup) (st : Nat)
    (bodyJSON snapshotJSON : List (String × GoValue))
    (h : c (snapshotRequest b) = Answer.response st (Body.decoded bodyJSON))
    (hs : mapIndex bodyJSON "snapshot" = GoValue.map snapshotJSON) :
    ((createSnapshot c b).result = Result.nil ↔
      st = 200 ∧ mapIndex snapshotJSON "state" = GoValue.string "SUCCESS") ∧
    (st = 200 → mapIndex snapshotJSON "state" ≠ GoValue.string "SUCCESS" →
      (createSnapshot c b).result = Result.err "Snapshot creation not acknowledged" ∧
      ∀ now arg, b = newBackup now arg → (main c now [arg]).exit = Exit.fatal) := by
  have hfail : st = 200 → mapIndex snapshotJSON "state" ≠ GoValue.string "SUCCESS" →
      (createSnapshot c b).result = Result.err "Snapshot creation not acknowledged" := by
    intro hst hne
    have hb : (mapIndex snapshotJSON "state").eqString "SUCCESS" = false := by
      cases hv : (mapIndex snapshotJSON "state").eqString "SUCCESS" with
      | false => rfl
      | true => exact absurd ((eqString_iff _ _).1 hv) hne
    simp [createSnapshot, h, hs, hst, hb]
  refine ⟨⟨?_, ?_⟩, ?_⟩
  · intro hnil
    by_cases hst : st = 200
    · refine ⟨hst, ?_⟩
      by_contra hne
      rw [hfail hst hne] at hnil
      exact Result.noConfusion hnil
    · simp [createSnapshot, h, hst] at hnil
  · rintro ⟨hst, hv⟩
    simp [createSnapshot, h, hs, hst, hv, GoValue.eqString]
  · intro hst hne
    refine ⟨hfail hst hne, ?_⟩
    intro now arg hb
    subst hb
    exact main_fatal_of_snapshot_err c now arg _ (hfail hst hne)

/-- Witness for C6: a snapshot that ends in state `FAILED`. -/
theorem snapshot_needs_success_state_witness :
    snapshotFailed (snapshotRequest sampleBackup) = Answer.response 200 (stateBody "FAILED") ∧
    (createSnapshot snapshotFailed sampleBackup).result =
      Result.err "Snapshot creation not acknowledged" ∧
    (main snapshotFailed sampleNow ["http://es:9200"]).exit = Exit.fatal :=
  ⟨by rfl,
    ((snapshot_needs_success_state snapshotFailed sampleBackup 200
        [("snapshot", GoValue.map [("state", GoValue.string "FAILED")])]
        [("state", GoValue.string "FAILED")] (by rfl) (by rfl)).2 rfl
        (fun hv => absurd (GoValue.string.inj hv) (by decide))).1,
    ((snapshot_needs_success_state snapshotFailed sampleBackup 200
        [("snapshot", GoValue.map [("state", GoValue.string "FAILED")])]
        [("state", GoValue.string "FAILED")] (by rfl) (by rfl)).2 rfl
        (fun hv => absurd (GoValue.string.inj hv) (by decide))).2
      sampleNow "http://es:9200" rfl⟩

/-- C4 as stated fails: on a healthy cluster without the repository `createRepo`
sends the creation PUT, and the `settings.location` of its body is the absolute
path `/snapshots/production-04-11-2026`, not `repoPath/repoName`, which is the
relative path `snapshots/production-04-11-2026`. -/
theorem creation_location_is_absolute :
    (createRepo healthy sampleBackup).requests =
      [probeRequest sampleBackup, creationRequest sampleBackup] ∧
    (creationRequest sampleBackup).body =
      specRepositoryBody "/snapshots/production-04-11-2026" ∧
    sampleBackup.repoPath ++ "/" ++ sampleBackup.repoName = "snapshots/production-04-11-2026" ∧
    (creationRequest sampleBackup).body ≠
      specRepositoryBody (sampleBackup.repoPath ++ "/" ++ sampleBackup.repoName) := by
  refine ⟨by rfl, by decide, by decide, by decide⟩

/-- C4, amended: after a probe that answers 404, `createRepo` issues exactly one
PUT, to `url/_snapshot/repoName`, whose JSON body has `type` `fs` and
`settings.location` equal to `/repoPath/repoName`, with a leading slash; with the
configuration built by `main` this location is `/snapshots/production-DD-MM-YYYY`. -/
theorem creation_put_location (c : Cluster) (b : Backup) (probeBody : Body)
    (h : c (probeRequest b) = Answer.response 404 probeBody) :
    (createRepo c b).requests = [probeRequest b, creationRequest b] ∧
    (createRepo c b).requests.filter (fun r => decide (r.method = Method.PUT)) =
      [creationRequest b] ∧
    (creationRequest b).url = b.url ++ "/_snapshot/" ++ b.repoName ∧
    (creationRequest b).body = specRepositoryBody ("/" ++ b.repoPath ++ "/" ++ b.repoName) ∧
    (∀ now arg, b = newBackup now arg → now.day < 100 → now.month < 100 → now.year < 10000 →
      (creationRequest b).body = specRepositoryBody ("/snapshots/production-" ++
        (specTwoDigits now.day ++ "-" ++ specTwoDigits now.month ++ "-" ++
          specFourDigits now.year))) := by
  have hreq : (createRepo c b).requests = [probeRequest b, creationRequest b] := by
    rcases createRepo_requests c b with h1 | h1
    · exfalso
      revert h1
      unfold createRepo
      rw [h]
      simp only [if_true]
      split
      · simp
      · split
        · split
          · simp
          · simp
          · split <;> simp
        · simp
    · exact h1
  have hbody : (creationRequest b).body =
      specRepositoryBody ("/" ++ b.repoPath ++ "/" ++ b.repoName) := by
    have hp : ("\x7b \"type\": \"fs\", \"settings\": \x7b \"location\": \"/" : String) =
        "\x7b \"type\": \"fs\", \"settings\": \x7b \"location\": \"" ++ "/" := by decide
    unfold creationRequest specRepositoryBody
    simp only []
    rw [hp]
    simp only [String.append_assoc]
  refine ⟨hreq, ?_, rfl, hbody, ?_⟩
  · rw [hreq]
    simp [List.filter, probeRequest, creationRequest]
  · intro now arg hb hd hm hy
    rw [hbody, hb]
    simp only [newBackup, formatDate_eq now hd hm hy, String.append_assoc]
    rfl

/-- Witness for C4: the creation PUT on a healthy cluster without the repository. -/
theorem creation_put_location_witness :
    healthy (probeRequest sampleBackup) = Answer.response 404 (Body.decoded []) ∧
    (createRepo healthy sampleBackup).requests =
      [probeRequest sampleBackup, creationRequest sampleBackup] ∧
    (creationRequest sampleBackup).body =
      specRepositoryBody ("/" ++ sampleBackup.repoPath ++ "/" ++ sampleBackup.repoName) :=
  ⟨by rfl,
    (creation_put_location healthy sampleBackup (Body.decoded []) (by rfl)).1,
    (creation_put_location healthy sampleBackup (Body.decoded []) (by rfl)).2.2.2.1⟩

/-- C7 as stated fails for the repository probe: its body is never read, so a
probe that answers 200 with a body that is not valid JSON lets the run go on to the
snapshot PUT, and the run ends in success. -/
theorem garbled_probe_body_is_ignored :
    probeGarbled (probeRequest sampleBackup) =
      Answer.response 200 (Body.invalid "invalid character looking for beginning of value") ∧
    (main probeGarbled sampleNow ["http://es:9200"]).exit = Exit.success ∧
    (main probeGarbled sampleNow ["http://es:9200"]).requests =
      [healthRequest sampleBackup, probeRequest sampleBackup, snapshotRequest sampleBackup] := by
  refine ⟨by rfl, by rfl, by rfl⟩

/-- C7, amended: for each of the three endpoints whose body the tool decodes, a
status 200 with a body that is not valid JSON ends the run in `log.Fatalf` with no
request of a later stage: after the health GET no other request is issued, and
after the creation PUT (reached through a probe that answers 404) no snapshot PUT
is issued.  The body of the repository probe is never read: a probe that answers
200 makes `createRepo` return `nil` whatever its body, and the run whose health
check passed goes on to the snapshot PUT. -/
theorem undecodable_body_stops_run (c : Cluster) (now : Time) (arg e : String) :
    (c (healthRequest (newBackup now arg)) = Answer.response 200 (Body.invalid e) →
      (main c now [arg]).exit = Exit.fatal ∧
      (main c now [arg]).requests = [healthRequest (newBackup now arg)]) ∧
    (∀ probeBody, c (probeRequest (newBackup now arg)) = Answer.response 404 probeBody →
      c (creationRequest (newBackup now arg)) = Answer.response 200 (Body.invalid e) →
      (main c now [arg]).exit = Exit.fatal ∧
      snapshotRequest (newBackup now arg) ∉ (main c now [arg]).requests) ∧
    (c (snapshotRequest (newBackup now arg)) = Answer.response 200 (Body.invalid e) →
      (main c now [arg]).exit = Exit.fatal) ∧
    (∀ probeBody, c (probeRequest (newBackup now arg)) = Answer.response 200 probeBody →
      (createRepo c (newBackup now arg)).result = Result.nil ∧
      ((healthCheck c (newBackup now arg)).result = Result.nil →
        snapshotRequest (newBackup now arg) ∈ (main c now [arg]).requests)) := by
  refine ⟨?_, ?_, ?_, ?_⟩
  · intro h
    have he : (healthCheck c (newBackup now arg)).result = Result.err e := by
      simp [healthCheck, h]
    rw [main_health_err c now arg e he]
    exact ⟨rfl, rfl⟩
  · intro probeBody hp hc
    have hr : (createRepo c (newBackup now arg)).result = Result.err e := by
      simp [createRepo, hp, hc]
    have hne := snapshotRequest_ne (newBackup now arg)
    cases hh : (healthCheck c (newBackup now arg)).result with
    | err e1 =>
      rw [main_health_err c now arg e1 hh]
      exact ⟨rfl, by simp [hne.1]⟩
    | panic p => exact absurd hh (healthCheck_no_panic c _ p)
    | nil =>
      rw [main_repo_err c now arg e hh hr]
      refine ⟨rfl, ?_⟩
      have h2 := snapshot_not_mem_createRepo c (newBackup now arg)
      simp [hne.1, h2]
  · intro h
    have hs : (createSnapshot c (newBackup now arg)).result = Result.err e := by
      simp [createSnapshot, h]
    exact main_fatal_of_snapshot_err c now arg e hs
  · intro probeBody hp
    have hr : (createRepo c (newBackup now arg)).result = Result.nil := by
      simp [createRepo, hp]
    refine ⟨hr, ?_⟩
    intro hh
    rw [(main_repo_ok c now arg hh hr).1]
    simp

/-- Witness for C7: a health endpoint, and a snapshot endpoint, that answer 200
with a body that is not valid JSON, and the probe of `probeGarbled`. -/
theorem undecodable_body_stops_run_witness :
    ((main (scripted (Answer.response 200 (Body.invalid "unexpected end of JSON input"))
        (Answer.response 200 (Body.decoded [])) (Answer.response 200 ackBody)
        (Answer.response 200 (stateBody "SUCCESS"))) sampleNow ["http://es:9200"]).exit
        = Exit.fatal ∧
      (main (scripted (Answer.response 200 (Body.invalid "unexpected end of JSON input"))
        (Answer.response 200 (Body.decoded [])) (Answer.response 200 ackBody)
        (Answer.response 200 (stateBody "SUCCESS"))) sampleNow ["http://es:9200"]).requests
        = [healthRequest sampleBackup]) ∧
    ((main (scripted (Answer.response 200 greenBody) (Answer.response 404 (Body.decoded []))
        (Answer.response 200 (Body.invalid "unexpected end of JSON input"))
        (Answer.response 200 (stateBody "SUCCESS"))) sampleNow ["http://es:9200"]).exit
        = Exit.fatal ∧
      snapshotRequest sampleBackup ∉
        (main (scripted (Answer.response 200 greenBody) (Answer.response 404 (Body.decoded []))
          (Answer.response 200 (Body.invalid "unexpected end of JSON input"))
          (Answer.response 200 (stateBody "SUCCESS"))) sampleNow ["http://es:9200"]).requests) ∧
    (main (scripted (Answer.response 200 greenBody) (Answer.response 200 (Body.decoded []))
        (Answer.response 200 ackBody)
        (Answer.response 200 (Body.invalid "unexpected end of JSON input")))
        sampleNow ["http://es:9200"]).exit = Exit.fatal ∧
    snapshotRequest sampleBackup ∈ (main probeGarbled sampleNow ["http://es:9200"]).requests :=
  ⟨(undecodable_body_stops_run _ sampleNow "http://es:9200" "unexpected end of JSON input").1
      (by rfl),
    (undecodable_body_stops_run _ sampleNow "http://es:9200" "unexpected end of JSON input").2.1
      (Body.decoded []) (by rfl) (by rfl),
    (undecodable_body_stops_run _ sampleNow "http://es:9200"
      "unexpected end of JSON input").2.2.1 (by rfl),
    ((undecodable_body_stops_run probeGarbled sampleNow "http://es:9200" "").2.2.2
      (Body.invalid "invalid character looking for beginning of value") (by rfl)).2 (by rfl)⟩

/-- C8: for a clock reading with day up to 31, month up to 12, year up to 9999,
hour up to 23 and minute up to 59, `main` builds `repoPath = snapshots`,
`repoName = production-DD-MM-YYYY` and `snapshotName = H-MM` (hour unpadded, minute
with two digits); `createSnapshot` sends its one request, a PUT, to
`url/_snapshot/repoName/snapshotName?wait_for_completion=true`; and two clock
readings in the same minute of the same day build the same configuration. -/
theorem names_from_clock (now : Time) (arg : String)
    (hd : 1 ≤ now.day ∧ now.day ≤ 31) (hm : 1 ≤ now.month ∧ now.month ≤ 12)
    (hy : now.year ≤ 9999) (hh : now.hour ≤ 23) (hn : now.minute ≤ 59) :
    (newBackup now arg).repoPath = "snapshots" ∧
    (newBackup now arg).repoName =
      "production-" ++ (specTwoDigits now.day ++ "-" ++ specTwoDigits now.month ++ "-" ++
        specFourDigits now.year) ∧
    (newBackup now arg).snapshotName = specHour now.hour ++ "-" ++ specTwoDigits now.minute ∧
    (∀ c, (createSnapshot c (newBackup now arg)).requests =
      [⟨Method.PUT, arg ++ "/_snapshot/" ++ (newBackup now arg).repoName ++ "/" ++
        (newBackup now arg).snapshotName ++ "?wait_for_completion=true", ""⟩]) ∧
    (∀ later : Time, later.year = now.year → later.month = now.month → later.day = now.day →
      later.hour = now.hour → later.minute = now.minute →
      newBackup later arg = newBackup now arg) := by
  refine ⟨rfl, ?_, ?_, ?_, ?_⟩
  · simp only [newBackup]
    rw [formatDate_eq now (by omega) (by omega) (by omega)]
  · simp only [newBackup]
    rw [formatClock_eq now (by omega) (by omega)]
  · intro c
    rw [createSnapshot_requests]
    rfl
  · intro later h1 h2 h3 h4 h5
    simp [newBackup, formatDate, formatClock, h1, h2, h3, h4, h5]

/-- Witness for C8: at 09:05 on 4 November 2026 the names are
`production-04-11-2026` and `9-05`, also 20 seconds later. -/
theorem names_from_clock_witness :
    (newBackup sampleNow "http://es:9200").repoName = "production-04-11-2026" ∧
    (newBackup sampleNow "http://es:9200").snapshotName = "9-05" ∧
    (createSnapshot healthy (newBackup sampleNow "http://es:9200")).requests =
      [⟨Method.PUT,
        "http://es:9200/_snapshot/production-04-11-2026/9-05?wait_for_completion=true", ""⟩] ∧
    newBackup ⟨2026, 11, 4, 9, 5, 53⟩ "http://es:9200" = newBackup sampleNow "http://es:9200" :=
  ⟨(names_from_clock sampleNow "http://es:9200" (by decide) (by decide) (by decide)
      (by decide) (by decide)).2.1.trans (by decide),
    (names_from_clock sampleNow "http://es:9200" (by decide) (by decide) (by decide)
      (by decide) (by decide)).2.2.1.trans (by decide),
    ((names_from_clock sampleNow "http://es:9200" (by decide) (by decide) (by decide)
      (by decide) (by decide)).2.2.2.1 healthy).trans (by decide),
    (names_from_clock sampleNow "http://es:9200" (by decide) (by decide) (by decide)
      (by decide) (by decide)).2.2.2.2 ⟨2026, 11, 4, 9, 5, 53⟩ rfl rfl rfl rfl rfl⟩

/-- C9: with an argument list whose length is not 1, `main` ends in the fatal
usage error, with a non-zero exit status and without any request; with exactly one
argument, that argument is the `url` of the configuration, unchanged, and every
request of the run goes to it followed by one of the three paths. -/
theorem usage_error_unless_one_argument (c : Cluster) (now : Time) (args : List String) :
    (args.length ≠ 1 →
      (main c now args).exit = Exit.fatal ∧ (main c now args).exit.code ≠ 0 ∧
      (main c now args).requests = [] ∧ (main c now args).logs = [LogLine.usage]) ∧
    (∀ arg, args = [arg] →
      (newBackup now arg).url = arg ∧
      ∀ r ∈ (main c now args).requests,
        r.url = arg ++ "/_cluster/health" ∨
        r.url = arg ++ "/_snapshot/" ++ (newBackup now arg).repoName ∨
        r.url = arg ++ "/_snapshot/" ++ (newBackup now arg).repoName ++ "/" ++
          (newBackup now arg).snapshotName ++ "?wait_for_completion=true") := by
  constructor
  · intro hlen
    match args, hlen with
    | [], _ => exact ⟨rfl, Nat.one_ne_zero, rfl, rfl⟩
    | [_], hl => exact absurd rfl hl
    | _ :: _ :: _, _ => exact ⟨rfl, Nat.one_ne_zero, rfl, rfl⟩
  · intro arg hargs
    subst hargs
    refine ⟨rfl, ?_⟩
    intro r hr
    rcases main_requests_subset c now arg r hr with h | h | h | h
    · exact Or.inl (by rw [h]; rfl)
    · exact Or.inr (Or.inl (by rw [h]; rfl))
    · exact Or.inr (Or.inl (by rw [h]; rfl))
    · exact Or.inr (Or.inr (by rw [h]; rfl))

/-- Witness for C9: no argument and two arguments end in the usage error without
a request; one argument is the base of every request of a full run. -/
theorem usage_error_unless_one_argument_witness :
    ((main healthy sampleNow []).exit = Exit.fatal ∧ (main healthy sampleNow []).requests = []) ∧
    ((main healthy sampleNow ["http://es:9200", "http://es:9201"]).exit = Exit.fatal ∧
      (main healthy sampleNow ["http://es:9200", "http://es:9201"]).requests = []) ∧
    (main healthy sampleNow ["http://es:9200"]).requests =
      [healthRequest sampleBackup, probeRequest sampleBackup, creationRequest sampleBackup,
        snapshotRequest sampleBackup] ∧
    (∀ r ∈ (main healthy sampleNow ["http://es:9200"]).requests,
      r.url = "http://es:9200" ++ "/_cluster/health" ∨
      r.url = "http://es:9200" ++ "/_snapshot/" ++ (newBackup sampleNow "http://es:9200").repoName ∨
      r.url = "http://es:9200" ++ "/_snapshot/" ++ (newBackup sampleNow "http://es:9200").repoName
        ++ "/" ++ (newBackup sampleNow "http://es:9200").snapshotName
        ++ "?wait_for_completion=true") :=
  ⟨⟨((usage_error_unless_one_argument healthy sampleNow []).1 (by decide)).1,
      ((usage_error_unless_one_argument healthy sampleNow []).1 (by decide)).2.2.1⟩,
    ⟨((usage_error_unless_one_argument healthy sampleNow
        ["http://es:9200", "http://es:9201"]).1 (by decide)).1,
      ((usage_error_unless_one_argument healthy sampleNow
        ["http://es:9200", "http://es:9201"]).1 (by decide)).2.2.1⟩,
    by rfl,
    ((usage_error_unless_one_argument healthy sampleNow ["http://es:9200"]).2
      "http://es:9200" rfl).2⟩

/-- C10, the code at the failing inputs: on a snapshot response with status 200
whose body is the empty JSON object, or an object whose `snapshot` is a string,
`createSnapshot` returns neither `nil` nor an error: the type assertion panics, and
the run dies of the panic (exit status 2) without the fatal log line of `main`. -/
theorem createSnapshot_panics_without_snapshot_object :
    (createSnapshot (snapshotAnswers []) sampleBackup).result =
      Result.panic "interface conversion: interface \x7b\x7d is nil, not map[string]interface \x7b\x7d" ∧
    (createSnapshot (snapshotAnswers [("snapshot", GoValue.string "x")]) sampleBackup).result =
      Result.panic
        "interface conversion: interface \x7b\x7d is string, not map[string]interface \x7b\x7d" ∧
    (main (snapshotAnswers []) sampleNow ["http://es:9200"]).exit.code = 2 ∧
    (main (snapshotAnswers []) sampleNow ["http://es:9200"]).logs =
      [LogLine.connected "http://es:9200", LogLine.existingRepo] := by
  refine ⟨by rfl, by rfl, by rfl, by rfl⟩

end K8sBackupes
